import Mathlib

/-!
Shallow embedding of the `ai_agent_demo` pipeline (chart planning, rendering,
diagnostics, orchestration and the CLI entry point), together with proofs of
the behavioural properties stated in the specification.

Conventions of the embedding:
* Python exceptions are modelled with `Except PyExc`; a function that can raise
  returns `Except PyExc α`, a total function returns `α` directly.
* A pandas `DataFrame` is modelled by its observable surface: the ordered list
  of columns, each carrying its name, its numeric/non-numeric dtype
  classification and, per row, whether the cell holds a value (`true`) or is
  missing/NaN (`false`); plus the row count `nrows` (the length of the index).
  pandas' `DataFrame.empty` is `nrows = 0 ∨ cols = []`.
* JSON values decoded by `json.loads` are modelled by `JVal`; float literals
  are carried symbolically as their decimal representation string (no float
  arithmetic is ever performed on them).
* The completion service (OpenAI client) is external; its behaviour at the one
  call site of the planner is abstracted by `LLMOutcome`, covering transport
  failure, malformed response structure, empty content, JSON parse failure and
  an arbitrary successfully-parsed JSON payload.
* Matplotlib drawing is out of scope (spec §1); a renderer is modelled by the
  decision it makes (skip vs produce) and the artifact path it writes, which
  is all downstream code observes.  Style-only options (`color`, `alpha`,
  `linewidth`, `linestyle`, `bins`) never influence that decision in the
  source; the `top_n` option of a count-mode bar chart does (it caps the
  category counts before the emptiness check) and is modelled.
-/

namespace AiAgentDemo

/-- A single-quote character as a string, used to build the Python message
templates that quote agent names. -/
def sq : String := String.singleton (Char.ofNat 39)

/-- Python exceptions that the modelled code can raise: the repository's
`AgentError` (with its optional `agent_name` tag) and the builtin
`TypeError`/`AttributeError` that untyped attribute access can produce. -/
inductive PyExc where
  | agentError (msg : String) (agent_name : Option String)
  | typeError (msg : String)
  | attributeError (msg : String)

/-- A JSON value as produced by `json.loads`: strings, integers, floats
(carried as their literal decimal text), booleans, `null`, arrays and
objects. -/
inductive JVal where
  | str (s : String)
  | num (n : Int)
  | flt (lit : String)
  | bool (b : Bool)
  | null
  | arr (xs : List JVal)
  | obj (kvs : List (String × JVal))

mutual

/-- Python `repr` of a decoded JSON value (scalars exactly; for containers the
usual bracketed element list). -/
def pyRepr : JVal → String
  | .str s => sq ++ s ++ sq
  | .num n => toString n
  | .flt lit => lit
  | .bool true => "True"
  | .bool false => "False"
  | .null => "None"
  | .arr xs => "[" ++ pyReprList xs ++ "]"
  | .obj kvs => "\x7b" ++ pyReprObj kvs ++ "\x7d"

/-- Comma-separated `repr`s of the elements of a list. -/
def pyReprList : List JVal → String
  | [] => ""
  | [x] => pyRepr x
  | x :: y :: rest => pyRepr x ++ ", " ++ pyReprList (y :: rest)

/-- Comma-separated `repr`s of the key/value pairs of a dict. -/
def pyReprObj : List (String × JVal) → String
  | [] => ""
  | [kv] => sq ++ kv.1 ++ sq ++ ": " ++ pyRepr kv.2
  | kv :: kv2 :: rest => sq ++ kv.1 ++ sq ++ ": " ++ pyRepr kv.2 ++ ", " ++ pyReprObj (kv2 :: rest)

end

/-- Python `str` of a decoded JSON value: a string renders as itself, anything
else as its `repr`. -/
def pyStr : JVal → String
  | .str s => s
  | v => pyRepr v

/-- Lookup of a key in a JSON object (`dict.get`, absent key → `none`). -/
def jlookup (kvs : List (String × JVal)) (key : String) : Option JVal :=
  (kvs.find? (fun kv => kv.1 == key)).map (·.2)

/-- Python `dict.get(key)` yields `None` both for an absent key and for a key
bound to JSON `null` (which `json.loads` decodes to `None`); this collapses
the two. -/
def collapseNull : Option JVal → Option JVal
  | some .null => none
  | v => v

/-- One pandas column: its name, whether `select_dtypes(include="number")`
classifies it as numeric, and its cells in row order — `none` for a
missing/NaN cell, `some v` for a present value (values are carried as opaque
canonical strings; the renderer only ever compares them for equality, via
`value_counts`). -/
structure DFCol where
  name : String
  numeric : Bool
  cells : List (Option String)

/-- A pandas DataFrame: row count (length of the index) and ordered columns. -/
structure DataFrame where
  nrows : Nat
  cols : List DFCol

/-- `dataframe.columns`, in native order. -/
def DataFrame.colNames (df : DataFrame) : List String :=
  df.cols.map (·.name)

/-- Column names of `dataframe.select_dtypes(include="number")`, in native
order. -/
def DataFrame.numericNames (df : DataFrame) : List String :=
  (df.cols.filter (·.numeric)).map (·.name)

/-- Column names of `dataframe.select_dtypes(exclude="number")`, in native
order. -/
def DataFrame.catNames (df : DataFrame) : List String :=
  (df.cols.filter (fun c => !c.numeric)).map (·.name)

/-- The cells of a named column (`[]` when the column is absent). -/
def colCells (df : DataFrame) (name : String) : List (Option String) :=
  ((df.cols.find? (fun c => c.name == name)).map (·.cells)).getD []

/-- The presence mask of a named column (`[]` when the column is absent). -/
def colPresence (df : DataFrame) (name : String) : List Bool :=
  (colCells df name).map (·.isSome)

/-- `len(dataframe[x].dropna().value_counts())`: the number of distinct
non-missing values of the column. -/
def distinctCount (df : DataFrame) (x : String) : Nat :=
  ((colCells df x).filterMap id).dedup.length

/-- `not dataframe[x].dropna().empty`: the column has at least one
non-missing value. -/
def seriesNonEmpty (df : DataFrame) (x : String) : Bool :=
  (colPresence df x).any id

/-- `not dataframe[[x, y]].dropna().empty`: some row has non-missing values in
both columns. -/
def pairNonEmpty (df : DataFrame) (x y : String) : Bool :=
  ((colPresence df x).zip (colPresence df y)).any (fun p => p.1 && p.2)

/-- `agents/chart_planning.py` `ChartSpec`: structured representation of a
single chart to generate.  `title` and `description` hold whatever JSON value
the planner supplied (the source stores them unvalidated). -/
structure ChartSpec where
  chart_type : String
  x : String
  y : Option String := none
  title : Option JVal := none
  description : Option JVal := none
  options : List (String × JVal) := []

/-- `agents/chart_planning.py` `ChartPlan`: chart specifications plus the
provenance tag and planner warnings. -/
structure ChartPlan where
  charts : List ChartSpec
  source : String
  warnings : List String := []

/-- The histogram bin count of the heuristic strategy:
`min(40, max(10, int(len(dataframe) ** 0.5)))` — the row count's square root
truncated to an integer, then clamped to `[10, 40]`. -/
def bins_for (nrows : Nat) : Nat :=
  min 40 (max 10 (Nat.sqrt nrows))

/-- The histogram spec built by `ChartPlanningAgent._heuristic_plan` for one
numeric column. -/
def heuristicHist (nrows : Nat) (column : String) : ChartSpec :=
  { chart_type := "histogram"
    x := column
    title := some (.str ("Distribution of " ++ column))
    description := some (.str ("Auto-generated histogram for numeric column."))
    options := [("bins", .num (bins_for nrows))] }

/-- The scatter spec built by `ChartPlanningAgent._heuristic_plan` over the
first two numeric columns. -/
def heuristicScatter (first second : String) : ChartSpec :=
  { chart_type := "scatter"
    x := first
    y := some second
    title := some (.str ("Scatter plot: " ++ first ++ " vs " ++ second))
    description := some (.str ("Compare two numeric features to inspect correlation."))
    options := [("alpha", .flt ("0.7"))] }

/-- The bar spec built by `ChartPlanningAgent._heuristic_plan` over the first
non-numeric column. -/
def heuristicBar (top_cat : String) : ChartSpec :=
  { chart_type := "bar"
    x := top_cat
    title := some (.str ("Category distribution: " ++ top_cat))
    description := some (.str ("Bar chart showing counts per category."))
    options := [("top_n", .num 20)] }

/-- `ChartPlanningAgent._heuristic_plan`: one histogram per numeric column,
one scatter when more than one numeric column exists, and one bar chart when
`dataframe.select_dtypes(exclude="number")` is not `.empty` (pandas `.empty`
is true when either axis has length zero, i.e. when there is no non-numeric
column or the frame has no rows). -/
def heuristic_plan (df : DataFrame) : ChartPlan :=
  let numericN := df.numericNames
  let catN := df.catNames
  let hists := numericN.map (heuristicHist df.nrows)
  let scatters :=
    if 1 < numericN.length then
      [heuristicScatter (numericN.getD 0 "") (numericN.getD 1 "")]
    else []
  let bars :=
    if catN.isEmpty || df.nrows == 0 then []
    else [heuristicBar (catN.getD 0 "")]
  { charts := hists ++ scatters ++ bars, source := "heuristic", warnings := [] }

/-- Python `str.lower()` (over the characters; the source only ever lowers
ASCII chart-type names). -/
def toLowerStr (s : String) : String :=
  String.mk (s.data.map Char.toLower)

/-- Python `str.isspace()` on one character: the Unicode whitespace set
(tab through carriage return, the C1 separators 0x1c–0x1f, space, next line,
no-break space, ogham space mark, the 0x2000–0x200a spaces, line/paragraph
separators, narrow no-break space, medium mathematical space and ideographic
space). -/
def pyIsSpace (c : Char) : Bool :=
  (9 ≤ c.toNat && c.toNat ≤ 13) || (28 ≤ c.toNat && c.toNat ≤ 32) ||
  c.toNat == 0x85 || c.toNat == 0xa0 || c.toNat == 0x1680 ||
  (0x2000 ≤ c.toNat && c.toNat ≤ 0x200a) || c.toNat == 0x2028 ||
  c.toNat == 0x2029 || c.toNat == 0x202f || c.toNat == 0x205f || c.toNat == 0x3000

/-- Python `str.strip()`: remove leading and trailing Unicode whitespace. -/
def pyStrip (s : String) : String :=
  String.mk (((s.data.dropWhile pyIsSpace).reverse.dropWhile pyIsSpace).reverse)

/-- Whether Python would raise `TypeError: unhashable type` when this decoded
JSON value is tested for membership in a set: lists and dicts are unhashable;
strings, numbers, floats, booleans and `None` are hashable. -/
def isUnhashable : JVal → Bool
  | .arr _ => true
  | .obj _ => true
  | _ => false

/-- The `TypeError` Python raises when an unhashable decoded JSON value is
tested for set membership. -/
def unhashableErr : JVal → PyExc
  | .obj _ => .typeError ("unhashable type: " ++ sq ++ "dict" ++ sq)
  | _ => .typeError ("unhashable type: " ++ sq ++ "list" ++ sq)

/-- The `ChartSpec` built for a kept candidate (its advisory fields are taken
unvalidated from the entry; JSON null collapses to absent). -/
def builtSpec (raw : List (String × JVal)) (chart_type x : String)
    (y : Option String) : ChartSpec :=
  { chart_type := chart_type
    x := x
    y := y
    title := collapseNull (jlookup raw ("title"))
    description := collapseNull (jlookup raw ("description"))
    options :=
      match jlookup raw ("options") with
      | some (.obj os) => os
      | _ => [] }

/-- One candidate entry of `ChartPlanningAgent._parse_chart_specs`: the entry
is kept only if `str(raw.get("chart_type", "")).strip().lower()` is non-empty,
`raw.get("x")` is a dataset column, and `raw.get("y")` is either `None`
(absent or JSON null) or a dataset column; hashable values failing these
checks are skipped (`continue`).  The membership tests
`x not in available_columns` / `y not in available_columns` raise `TypeError`
on an unhashable (list/dict) value, outside every `try`; an empty chart type
short-circuits the `x` test (`if not chart_type or x not in ...`), and an
`x` that fails its test short-circuits the `y` test. -/
def parseOne (cols : List String) (raw : List (String × JVal)) :
    Except PyExc (Option ChartSpec) :=
  let chart_type := toLowerStr (pyStrip (pyStr ((jlookup raw ("chart_type")).getD (.str ("")))))
  if chart_type = "" then .ok none
  else
    match jlookup raw ("x") with
    | some (.str x) =>
      if cols.contains x then
        match collapseNull (jlookup raw ("y")) with
        | none => .ok (some (builtSpec raw chart_type x none))
        | some (.str yv) =>
          if cols.contains yv then .ok (some (builtSpec raw chart_type x (some yv)))
          else .ok none
        | some (.arr ys) => .error (unhashableErr (.arr ys))
        | some (.obj os) => .error (unhashableErr (.obj os))
        | some _ => .ok none
      else .ok none
    | some (.arr xs) => .error (unhashableErr (.arr xs))
    | some (.obj os) => .error (unhashableErr (.obj os))
    | _ => .ok none

/-- `raw.get(...)` on a non-dict element of the charts list raises
`AttributeError`; on a dict the candidate is validated (which may itself
raise on an unhashable column value). -/
def parseRaw (cols : List String) (raw : JVal) : Except PyExc (Option ChartSpec) :=
  match raw with
  | .obj kvs => parseOne cols kvs
  | _ => .error (.attributeError ("object has no attribute " ++ sq ++ "get" ++ sq))

/-- `list(self._parse_chart_specs(charts_value, dataframe))`: candidates are
processed in order; the first non-dict entry raises. -/
def parseAll (cols : List String) : List JVal → Except PyExc (List ChartSpec)
  | [] => .ok []
  | raw :: rest => do
    let spec? ← parseRaw cols raw
    let specs ← parseAll cols rest
    .ok (match spec? with
      | some s => s :: specs
      | none => specs)

/-- Python iteration over the value found under `"charts"`: lists yield their
elements, strings their characters (as one-character strings), dicts their
keys; numbers, floats, booleans and `None` raise `TypeError`. -/
def iterElems : JVal → Except PyExc (List JVal)
  | .arr xs => .ok xs
  | .str s => .ok (s.data.map (fun c => .str (String.singleton c)))
  | .obj kvs => .ok (kvs.map (fun kv => .str kv.1))
  | _ => .error (.typeError ("object is not iterable"))

/-- Behaviour of the one completion-service call made by
`ChartPlanningAgent._attempt_llm_plan`, observed at the points where the
source branches: client construction failed (`self._llm_client is None`), the
request raised, accessing `response.choices[0].message` raised, the content
was missing/empty, `json.loads` failed, or the content parsed to some JSON
payload. -/
inductive LLMOutcome where
  | noClient
  | transportFail (exc : String)
  | structureFail (exc : String)
  | emptyContent
  | badJson (exc : String)
  | jsonOk (payload : JVal)

/-- The empty heuristic-tagged plan carrying one warning, as built on each
degraded path of `_attempt_llm_plan`. -/
def emptyHeuristic (warning : String) : ChartPlan :=
  { charts := [], source := "heuristic", warnings := [warning] }

/-- `ChartPlanningAgent._attempt_llm_plan`: every service failure degrades to
an empty heuristic-tagged plan with one warning; a parsed payload is read with
`payload.get("charts", [])` and the candidates are validated.  The `.get` on a
non-dict payload and the iteration/`raw.get` on an ill-shaped charts value are
not inside any `try` in the source and therefore raise. -/
def attempt_llm_plan (df : DataFrame) (outcome : LLMOutcome) : Except PyExc ChartPlan :=
  match outcome with
  | .noClient =>
    .ok (emptyHeuristic ("LLM model configured but OpenAI client unavailable; falling back to heuristics."))
  | .transportFail exc => .ok (emptyHeuristic ("LLM planning failed: " ++ exc))
  | .structureFail exc => .ok (emptyHeuristic ("Unexpected LLM response structure: " ++ exc))
  | .emptyContent => .ok (emptyHeuristic ("LLM returned empty content; using heuristic plan."))
  | .badJson exc => .ok (emptyHeuristic ("Failed to parse LLM JSON: " ++ exc))
  | .jsonOk payload =>
    match payload with
    | .obj kvs => do
      let elems ← iterElems ((jlookup kvs ("charts")).getD (.arr []))
      let charts ← parseAll df.colNames elems
      if charts.isEmpty then
        .ok (emptyHeuristic ("LLM did not yield valid charts; using heuristic plan."))
      else
        .ok { charts := charts, source := "llm", warnings := [] }
    | _ => .error (.attributeError ("object has no attribute " ++ sq ++ "get" ++ sq))

/-- Python truthiness of `self.llm_model` (an optional string): `None` and the
empty string are falsy. -/
def modelTruthy : Option String → Bool
  | some m => !m.isEmpty
  | none => false

/-- `ChartPlanningAgent.run`: requires a dataframe, attempts the model-backed
strategy when a model is configured, and falls back to the heuristic strategy
when the attempt produced no usable plan, appending the attempt's warnings to
the heuristic plan's warnings.  (The source guards the `extend` with
`plan.warnings` being non-empty; appending an empty list is the same plan.) -/
def chartPlanningRun (llm_model : Option String) (dataframe : Option DataFrame)
    (outcome : LLMOutcome) : Except PyExc ChartPlan :=
  match dataframe with
  | none => .error (.agentError ("DataFrame required for chart planning.") (some ("chart_planning")))
  | some df => do
    let plan? ←
      if modelTruthy llm_model then (attempt_llm_plan df outcome).map some
      else .ok (none : Option ChartPlan)
    match plan? with
    | none => .ok (heuristic_plan df)
    | some p =>
      if p.source == "heuristic" && p.charts.isEmpty then
        .ok { heuristic_plan df with
              warnings := (heuristic_plan df).warnings ++ p.warnings }
      else
        .ok p

/-- Python truthiness of a decoded JSON value (`if top_n:`): `None`, zero
numbers, the zero float, and empty strings/lists/dicts are falsy. -/
def jTruthy : JVal → Bool
  | .num n => n != 0
  | .bool b => b
  | .str s => !s.isEmpty
  | .flt lit => !(lit == "0.0" || lit == "-0.0" || lit == "0")
  | .null => false
  | .arr xs => !xs.isEmpty
  | .obj kvs => !kvs.isEmpty

/-- Python `int(...)` truncation of a float's decimal literal toward zero
(the integer part before the decimal point; exotic literal forms are not
produced by any claim). -/
def truncOfDecimalLit (lit : String) : Option Int :=
  ((lit.splitOn (".")).headD "").toInt?

/-- Python `int(value)` on a decoded JSON value, with `TypeError`/`ValueError`
mapped to `none` (the source catches exactly those and leaves the counts
uncapped).  `int(<str>)` is modelled for plain optionally-signed digit
strings. -/
def pyIntOfJVal : JVal → Option Int
  | .num n => some n
  | .bool true => some 1
  | .bool false => some 0
  | .str s => s.toInt?
  | .flt lit => truncOfDecimalLit lit
  | _ => none

/-- The length of `counts` after the `top_n` handling of
`DataVisualizationAgent._render_bar` in count mode: starting from one row per
distinct value, a truthy `top_n` caps with `counts.head(int(top_n))` — the
first `k` rows for `k ≥ 0`, all but the last `|k|` rows for negative `k` —
while a failed `int(...)` conversion leaves the counts uncapped. -/
def cappedCountsLen (ncats : Nat) (top_n : JVal) : Nat :=
  if jTruthy top_n then
    match pyIntOfJVal top_n with
    | some k => if 0 ≤ k then min k.toNat ncats else ncats - (-k).toNat
    | none => ncats
  else ncats

/-- `DataVisualizationAgent._render_chart` together with the five type-specific
renderers: skip (`none`) when a referenced column is missing, when the chart
type is unknown, or when the relevant data after `dropna()` is empty — for a
count-mode bar chart, after additionally capping the per-category counts with
`counts.head(int(top_n))` when the `top_n` option is truthy; otherwise
produce the deterministically named artifact path.  Drawing itself is out of
scope (spec §1) and the style-only options (`color`, `alpha`, `linewidth`,
`linestyle`, `bins`) never affect this decision. -/
def render_chart (df : DataFrame) (output_dir : String) (spec : ChartSpec) : Option String :=
  if !(df.colNames.contains spec.x) then none
  else if (match spec.y with
    | some yv => !(df.colNames.contains yv)
    | none => false) then none
  else
    let chart_type := toLowerStr spec.chart_type
    let pathFor : String → String := fun stem => output_dir ++ "/" ++ stem ++ ".png"
    if chart_type == "histogram" then
      if seriesNonEmpty df spec.x then some (pathFor ("hist_" ++ spec.x)) else none
    else if chart_type == "scatter" then
      match spec.y with
      | none => none
      | some yv =>
        if pairNonEmpty df spec.x yv then some (pathFor ("scatter_" ++ spec.x ++ "_" ++ yv))
        else none
    else if chart_type == "line" then
      match spec.y with
      | some yv =>
        if pairNonEmpty df spec.x yv then some (pathFor ("line_" ++ spec.x ++ "_" ++ yv))
        else none
      | none =>
        if seriesNonEmpty df spec.x then some (pathFor ("line_" ++ spec.x)) else none
    else if chart_type == "bar" then
      match spec.y with
      | some yv =>
        if pairNonEmpty df spec.x yv then some (pathFor ("bar_" ++ spec.x ++ "_" ++ yv))
        else none
      | none =>
        if cappedCountsLen (distinctCount df spec.x)
            ((jlookup spec.options ("top_n")).getD .null) = 0 then none
        else some (pathFor ("bar_" ++ spec.x))
    else if chart_type == "box" then
      match spec.y with
      | some yv =>
        if pairNonEmpty df spec.x yv then some (pathFor ("box_" ++ spec.x ++ "_" ++ yv))
        else none
      | none =>
        if seriesNonEmpty df spec.x then some (pathFor ("box_" ++ spec.x)) else none
    else none

/-- The histogram spec built by `DataVisualizationAgent._default_plan` (its
options dict is empty, unlike the heuristic planner's). -/
def defaultHist (column : String) : ChartSpec :=
  { chart_type := "histogram"
    x := column
    title := some (.str ("Distribution of " ++ column))
    options := [] }

/-- The scatter spec built by `DataVisualizationAgent._default_plan`. -/
def defaultScatter (first second : String) : ChartSpec :=
  { chart_type := "scatter"
    x := first
    y := some second
    title := some (.str ("Scatter plot: " ++ first ++ " vs " ++ second))
    options := [] }

/-- `DataVisualizationAgent._default_plan`: raises when
`dataframe.select_dtypes(include="number")` is `.empty` (no numeric column or
no rows); otherwise one histogram per numeric column plus one scatter over the
first two numeric columns when more than one exists. -/
def default_plan (df : DataFrame) : Except PyExc (List ChartSpec) :=
  if df.numericNames.isEmpty || df.nrows == 0 then
    .error (.agentError ("No numeric columns available for visualization.") (some ("data_visualization")))
  else
    .ok ((df.numericNames.map defaultHist) ++
      (if 1 < df.numericNames.length then
        [defaultScatter (df.numericNames.getD 0 "") (df.numericNames.getD 1 "")]
      else []))

/-- `DataVisualizationAgent.run`: requires a dataframe and an output
directory, renders the plan's charts (or the default plan when the plan is
`None` or has no charts), collects the produced artifacts in order, and raises
when none was produced. -/
def data_visualization_run (dataframe : Option DataFrame) (output_dir : Option String)
    (plan : Option ChartPlan) : Except PyExc (List String) :=
  match dataframe with
  | none => .error (.agentError ("DataFrame required for visualization.") (some ("data_visualization")))
  | some df =>
    match output_dir with
    | none => .error (.agentError ("Output directory is required for visualization.") (some ("data_visualization")))
    | some dir =>
      match (match plan with
        | some p => if p.charts.isEmpty then default_plan df else .ok p.charts
        | none => default_plan df : Except PyExc (List ChartSpec)) with
      | .error e => .error e
      | .ok specs =>
        let saved_files := specs.filterMap (render_chart df dir)
        if saved_files.isEmpty then
          .error (.agentError ("No charts could be generated for the provided plan.") (some ("data_visualization")))
        else
          .ok saved_files

/-- Behaviour of the optional enrichment call of `DebuggingAgent.run`: no
client was constructed, the request raised, or it returned some (possibly
absent or empty) content. -/
inductive EnrichOutcome where
  | noClient
  | callFail (exc : String)
  | reply (content : Option String)

/-- The base message of `DebuggingAgent.run`: `_handle_agent_error` for an
`AgentError` — the `" in agent '...'"` segment appears only when the
`agent_name` tag is truthy (`if error.agent_name`), so both a missing tag and
an empty-string tag drop it — and a generic verify-your-input message for any
other exception. -/
def base_message : PyExc → String
  | .agentError msg tag =>
    "Encountered a recoverable error" ++
      (match tag with
        | some t => if t.isEmpty then "" else " in agent " ++ sq ++ t ++ sq
        | none => "") ++ ": " ++ msg ++ "."
  | _ =>
    "An unexpected error occurred. Please review the stack trace and ensure that the input file is well-formed."

/-- The suffix appended when LLM debugging is unavailable and initialisation
warnings exist. -/
def unavailableSuffix (init_warnings : List String) : String :=
  "\n\nLLM debugging unavailable: " ++ String.intercalate " " init_warnings

/-- `DebuggingAgent.run`: total — returns the base message, extended by the
enrichment outcome (a suggestion, or an unavailability notice when the call
failed or initialisation warnings exist). -/
def debugging_run (init_warnings : List String) (enrich : EnrichOutcome)
    (error : Option PyExc) : String :=
  match error with
  | none => "No errors to debug."
  | some e =>
    let message := base_message e
    match enrich with
    | .noClient =>
      if init_warnings.isEmpty then message else message ++ unavailableSuffix init_warnings
    | .callFail exc => message ++ "\n\nLLM debugging unavailable: " ++ exc
    | .reply content =>
      match content with
      | some c =>
        if c.isEmpty then
          if init_warnings.isEmpty then message else message ++ unavailableSuffix init_warnings
        else
          message ++ "\n\nLLM suggestion:\n" ++ pyStrip c
      | none =>
        if init_warnings.isEmpty then message else message ++ unavailableSuffix init_warnings

/-- The analysis stage's report.  Modelled from the spec: `data_analysis.py`
is not among the provided sources; spec §6 specifies the report as an opaque
mapping-like summary that downstream stages never inspect structurally. -/
structure AnalysisReport where
  summary : List (String × String)

/-- `orchestrator.py` `OrchestratorResult`. -/
structure OrchestratorResult where
  dataframe_preview : String
  analysis_report : Option AnalysisReport
  chart_plan : Option ChartPlan
  visualization_paths : List String
  debug_message : Option String

/-- `AgentOrchestrator._render_dataframe_preview`: empty for a missing
dataframe, otherwise a total rendering of the frame's head.  The markdown text
itself is presentation-only (out of scope, spec §1); it is modelled as a total
function of the frame. -/
def render_dataframe_preview : Option DataFrame → String
  | none => ""
  | some df => String.intercalate ", " df.colNames

/-- The `except` branch of `AgentOrchestrator.run`: the preview keeps whatever
dataframe was extracted, the report, plan and artifact list are reset, and the
debugger's message is attached. -/
def failedResult (dataframe : Option DataFrame) (init_warnings : List String)
    (enrich : EnrichOutcome) (exc : PyExc) : OrchestratorResult :=
  { dataframe_preview := render_dataframe_preview dataframe
    analysis_report := none
    chart_plan := none
    visualization_paths := []
    debug_message := some (debugging_run init_warnings enrich (some exc)) }

/-- `AgentOrchestrator.run`: the four stages run in order, each feeding the
next; the first exception short-circuits the remaining stages and is routed to
the debugger.  Each stage's behaviour for the run is abstracted by its
`Except` result (the stage functions above instantiate them). -/
def orchestrator_run (extract : Except PyExc DataFrame)
    (analyze : Except PyExc AnalysisReport) (plan : Except PyExc ChartPlan)
    (render : Except PyExc (List String)) (debug_init_warnings : List String)
    (debug_enrich : EnrichOutcome) : OrchestratorResult :=
  match extract with
  | .error exc => failedResult none debug_init_warnings debug_enrich exc
  | .ok df =>
    match analyze with
    | .error exc => failedResult (some df) debug_init_warnings debug_enrich exc
    | .ok report =>
      match plan with
      | .error exc => failedResult (some df) debug_init_warnings debug_enrich exc
      | .ok chart_plan =>
        match render with
        | .error exc => failedResult (some df) debug_init_warnings debug_enrich exc
        | .ok paths =>
          { dataframe_preview := render_dataframe_preview (some df)
            analysis_report := some report
            chart_plan := some chart_plan
            visualization_paths := paths
            debug_message := none }

/-- The keyword parameters `ChartPlanningAgent.__init__` accepts (all
keyword-only; there is no `**kwargs`). -/
def chart_planning_init_params : List String :=
  ["llm_model", "temperature", "max_charts"]

/-- The keyword arguments `main.py` passes when constructing the chart
planner. -/
def main_planner_call_kwargs : List String :=
  ["llm_settings", "temperature", "max_charts"]

/-- A Python keyword-only call: the first keyword argument outside the
accepted parameter list raises `TypeError`. -/
def callKeywordOnly (accepted passed : List String) : Except PyExc Unit :=
  match passed.find? (fun k => !(accepted.contains k)) with
  | some k =>
    .error (.typeError ("__init__() got an unexpected keyword argument " ++ sq ++ k ++ sq))
  | none => .ok ()

/-- Construction of `DataAnalysisAgent(llm_settings=..., llm_temperature=...)`.
Modelled from the spec: `data_analysis.py` is not among the provided sources;
spec §6 lists per-stage model settings for the analysis stage as part of the
CLI surface, so the construction succeeds. -/
def data_analysis_agent_init : Except PyExc Unit := .ok ()

/-- Construction of `DebuggingAgent(llm_settings=..., llm_temperature=...)`
(`debugging.py` accepts exactly these keywords and `create_client` never
raises). -/
def debugging_agent_init : Except PyExc Unit :=
  callKeywordOnly ["llm_settings", "llm_temperature"] ["llm_settings", "llm_temperature"]

/-- `main.py` `main` after successful argument parsing: construct the agents,
run the orchestrator, print, `return 0`.  The orchestrator's stage behaviour
for the run is abstracted by the arguments, which the constructed-agent part
never consults. -/
def main_run (extract : Except PyExc DataFrame) (analyze : Except PyExc AnalysisReport)
    (plan : Except PyExc ChartPlan) (render : Except PyExc (List String))
    (debug_enrich : EnrichOutcome) : Except PyExc Nat := do
  data_analysis_agent_init
  callKeywordOnly chart_planning_init_params main_planner_call_kwargs
  debugging_agent_init
  let _ := orchestrator_run extract analyze plan render [] debug_enrich
  .ok 0

/-- Scenario A's dataset: `{age: int, income: float, city: str}` with three
fully populated rows. -/
def dfScenarioA : DataFrame :=
  ⟨3, [⟨"age", true, [some ("31"), some ("42"), some ("27")]⟩,
       ⟨"income", true, [some ("50.0"), some ("61.5"), some ("44.0")]⟩,
       ⟨"city", false, [some ("Oslo"), some ("Lima"), some ("Oslo")]⟩]⟩

/-- A dataset with one non-numeric column and zero rows (pandas permits it;
`select_dtypes(...)` of it is `.empty`). -/
def dfNoRows : DataFrame := ⟨0, [⟨"city", false, []⟩]⟩

/-- A dataset with one numeric column and 120 fully populated rows. -/
def dfRows120 : DataFrame := ⟨120, [⟨"a", true, List.replicate 120 (some ("1"))⟩]⟩

/-- A dataset with one numeric column and one populated row. -/
def dfOneNum : DataFrame := ⟨1, [⟨"a", true, [some ("7")]⟩]⟩

/-- A dataset with one numeric column whose single cell is missing (NaN). -/
def dfAllMissing : DataFrame := ⟨1, [⟨"a", true, [none]⟩]⟩

/-- C9: for every successfully parsed command-line invocation, `main` raises
`TypeError` while constructing `ChartPlanningAgent` — `main.py` passes
`llm_settings=...` but `ChartPlanningAgent.__init__` accepts only `llm_model`,
`temperature` and `max_charts` — so the orchestrator never runs, `main` never
returns 0, and the process exits non-zero.  This contradicts the documented
exit-code contract; the slip is the constructor keyword mismatch. -/
theorem main_always_raises_type_error (extract : Except PyExc DataFrame)
    (analyze : Except PyExc AnalysisReport) (plan : Except PyExc ChartPlan)
    (render : Except PyExc (List String)) (debug_enrich : EnrichOutcome) :
    main_run extract analyze plan render debug_enrich =
      .error (.typeError ("__init__() got an unexpected keyword argument " ++ sq ++ "llm_settings" ++ sq)) := by
  rfl

/-- C1 counterexample: with a model configured and a dataframe supplied, a
completion-service reply that parses to the JSON object `{"charts": 5}` makes
the planner raise `TypeError` (iterating the non-iterable charts value in
`_parse_chart_specs` is outside every `try`), contradicting "returns a Chart
Plan and never raises". -/
theorem chart_planning_raises_on_malformed_payload :
    chartPlanningRun (some ("gpt-4o")) (some dfOneNum)
        (.jsonOk (.obj [("charts", .num 5)])) =
      .error (.typeError ("object is not iterable")) := by
  rfl

/-- C4 counterexample: on a dataset with a non-numeric column but zero rows,
`select_dtypes(exclude="number").empty` is true, so the heuristic plan has no
bar spec even though a non-numeric column exists — the claim demands exactly
one bar spec there. -/
theorem heuristic_plan_no_bar_on_zero_rows :
    chartPlanningRun none (some dfNoRows) .noClient = .ok (heuristic_plan dfNoRows)
    ∧ (heuristic_plan dfNoRows).charts = []
    ∧ dfNoRows.catNames = ["city"] :=
  ⟨rfl, rfl, rfl⟩

/-- The bin count the claim describes: the square root of the row count
rounded to the NEAREST integer (a tie is impossible at an integer argument),
then clamped to `[10, 40]`. -/
def claim_bins (row_count : Nat) : Nat :=
  let s := Nat.sqrt row_count
  min 40 (max 10 (if row_count ≤ s * s + s then s else s + 1))

/-- At 120 rows, `√120 ≈ 10.954`, so its floor is 10. -/
theorem sqrt_120_eq_10 : Nat.sqrt 120 = 10 :=
  (Nat.eq_sqrt.mpr (by norm_num)).symm

/-- C7 counterexample: at 120 rows the source computes
`min(40, max(10, int(120 ** 0.5))) = 10` (truncation), while the claim's
round-to-nearest formula yields 11. -/
theorem heuristic_bins_floor_not_round :
    (heuristic_plan dfRows120).charts = [heuristicHist 120 ("a")]
    ∧ (heuristicHist 120 ("a")).options = [("bins", JVal.num (bins_for 120))]
    ∧ bins_for 120 = 10
    ∧ claim_bins 120 = 11 := by
  refine ⟨rfl, rfl, ?_, ?_⟩
  · simp [bins_for, sqrt_120_eq_10]
  · simp [claim_bins, sqrt_120_eq_10]

/-- C10 counterexample: on a dataset whose single numeric column is entirely
missing, the default-plan path still fails (the lone default histogram is
skipped after `dropna`, leaving zero artifacts), contradicting "it does not
fail" whenever at least one numeric column exists. -/
theorem viz_default_plan_can_fail :
    dfAllMissing.numericNames = ["a"]
    ∧ data_visualization_run (some dfAllMissing) (some ("out")) none =
        .error (.agentError ("No charts could be generated for the provided plan.")
          (some ("data_visualization"))) :=
  ⟨rfl, rfl⟩

/-- C8 counterexample: the translator's tagged template says "in agent", not
"in stage" as the claim quotes; and an `AgentError` carrying no tag yields
"Encountered a recoverable error: <message>.", not the generic
verify-the-input-file message the claim assigns to every untagged error. -/
theorem debug_message_says_agent_not_stage :
    debugging_run [] .noClient (some (.agentError ("boom") (some ("data_extraction")))) =
      "Encountered a recoverable error in agent " ++ sq ++ "data_extraction" ++ sq ++ ": boom."
    ∧ debugging_run [] .noClient (some (.agentError ("boom") (some ("data_extraction")))) ≠
      "Encountered a recoverable error in stage " ++ sq ++ "data_extraction" ++ sq ++ ": boom."
    ∧ debugging_run [] .noClient (some (.agentError ("boom") none)) =
      "Encountered a recoverable error: boom." := by
  refine ⟨rfl, ?_, rfl⟩
  decide

/-- A string of length zero is the empty string. -/
lemma eq_empty_of_length_zero (s : String) (h : s.length = 0) : s = "" := by
  cases s with
  | mk data =>
    have hd : data = [] := List.length_eq_zero.mp h
    simp [hd]

/-- Appending anything to a non-empty string stays non-empty. -/
lemma append_ne_empty_left (s t : String) (h : s ≠ "") : s ++ t ≠ "" := by
  intro he
  have hl := congrArg String.length he
  rw [String.length_append] at hl
  have h0 : ("" : String).length = 0 := rfl
  rw [h0] at hl
  exact h (eq_empty_of_length_zero s (by omega))

/-- Every branch of `DebuggingAgent.run` returns the base message with some
(possibly empty) suffix appended. -/
lemma debugging_run_eq_base_append (w : List String) (en : EnrichOutcome) (e : PyExc) :
    ∃ t, debugging_run w en (some e) = base_message e ++ t := by
  unfold debugging_run
  cases en with
  | noClient =>
    by_cases hw : w.isEmpty
    · exact ⟨"", by simp [hw, String.append_empty]⟩
    · exact ⟨unavailableSuffix w, by simp [hw]⟩
  | callFail exc =>
    exact ⟨"\n\nLLM debugging unavailable: " ++ exc, by simp [String.append_assoc]⟩
  | reply content =>
    match content with
    | some c =>
      by_cases hc : c.isEmpty
      · by_cases hw : w.isEmpty
        · exact ⟨"", by simp [hc, hw, String.append_empty]⟩
        · exact ⟨unavailableSuffix w, by simp [hc, hw]⟩
      · exact ⟨"\n\nLLM suggestion:\n" ++ pyStrip c, by simp [hc, String.append_assoc]⟩
    | none =>
      by_cases hw : w.isEmpty
      · exact ⟨"", by simp [hw, String.append_empty]⟩
      · exact ⟨unavailableSuffix w, by simp [hw]⟩

/-- The base diagnostic message is never empty, whatever the error. -/
lemma base_message_ne_empty (e : PyExc) : base_message e ≠ "" := by
  cases e with
  | agentError msg tag =>
    cases tag with
    | some t =>
      simp only [base_message]
      exact append_ne_empty_left _ _ (append_ne_empty_left _ _
        (append_ne_empty_left _ _ (append_ne_empty_left _ _ (by decide))))
    | none =>
      simp only [base_message]
      exact append_ne_empty_left _ _ (append_ne_empty_left _ _
        (append_ne_empty_left _ _ (append_ne_empty_left _ _ (by decide))))
  | typeError msg =>
    show "An unexpected error occurred. Please review the stack trace and ensure that the input file is well-formed." ≠ ""
    decide
  | attributeError msg =>
    show "An unexpected error occurred. Please review the stack trace and ensure that the input file is well-formed." ≠ ""
    decide

/-- The debugger's output for an actual error is never the empty string. -/
lemma debugging_run_ne_empty (w : List String) (en : EnrichOutcome) (e : PyExc) :
    debugging_run w en (some e) ≠ "" := by
  obtain ⟨t, ht⟩ := debugging_run_eq_base_append w en e
  rw [ht]
  exact append_ne_empty_left _ _ (base_message_ne_empty e)

/-- C2: in every result of the orchestrator, exactly one side is populated —
the diagnostic message is absent precisely when all four stages succeeded, and
whenever it is present (any stage raised) the chart plan is reset to `none`,
the artifact list to `[]`, and the diagnostic message is a non-empty string. -/
theorem orchestrator_result_exactly_one_side (extract : Except PyExc DataFrame)
    (analyze : Except PyExc AnalysisReport) (plan : Except PyExc ChartPlan)
    (render : Except PyExc (List String)) (w : List String) (en : EnrichOutcome) :
    ((orchestrator_run extract analyze plan render w en).debug_message = none ↔
      ((∃ df, extract = .ok df) ∧ (∃ r, analyze = .ok r) ∧
       (∃ p, plan = .ok p) ∧ (∃ a, render = .ok a)))
    ∧ ((orchestrator_run extract analyze plan render w en).debug_message = none
       ∨ ((orchestrator_run extract analyze plan render w en).chart_plan = none
          ∧ (orchestrator_run extract analyze plan render w en).visualization_paths = []
          ∧ ∃ msg, (orchestrator_run extract analyze plan render w en).debug_message = some msg
              ∧ msg ≠ "")) := by
  cases extract <;> cases analyze <;> cases plan <;> cases render <;>
    simp [orchestrator_run, failedResult, debugging_run_ne_empty]

/-- C8 (amended): an error whose stage tag is truthy (present and non-empty)
is rendered as "Encountered a recoverable error in agent '<tag>': <message>."
(the literal word is "agent", not "stage"); an `AgentError` whose tag is
missing OR the empty string drops the " in agent '...'" segment (the source
tests `if error.agent_name`, Python truthiness); only errors that are not
`AgentError`s get the generic message recommending the caller verify the
input file; in every case (including any enrichment behaviour) the base
message is returned with at most a suffix appended — the translator is total
and never raises. -/
theorem debug_message_templates (w : List String) (en : EnrichOutcome) (msg tag : String)
    (htag : tag ≠ "") :
    (∃ t, debugging_run w en (some (.agentError msg (some tag))) =
      ("Encountered a recoverable error in agent " ++ sq ++ tag ++ sq ++ ": " ++ msg ++ ".") ++ t)
    ∧ (∃ t, debugging_run w en (some (.agentError msg none)) =
      ("Encountered a recoverable error: " ++ msg ++ ".") ++ t)
    ∧ (∃ t, debugging_run w en (some (.agentError msg (some ("")))) =
      ("Encountered a recoverable error: " ++ msg ++ ".") ++ t)
    ∧ (∃ t, debugging_run w en (some (.typeError msg)) =
      ("An unexpected error occurred. Please review the stack trace and ensure that the input file is well-formed.") ++ t)
    ∧ (w = [] → en = .noClient →
        debugging_run w en (some (.agentError msg (some tag))) =
          "Encountered a recoverable error in agent " ++ sq ++ tag ++ sq ++ ": " ++ msg ++ ".") := by
  have hie : tag.isEmpty = false := by
    cases h2 : tag.isEmpty
    · rfl
    · exact absurd ((String.isEmpty_iff tag).mp h2) htag
  have hbase : base_message (.agentError msg (some tag)) =
      "Encountered a recoverable error in agent " ++ sq ++ tag ++ sq ++ ": " ++ msg ++ "." := by
    simp only [base_message, hie, Bool.false_eq_true, if_false]
    simp only [← String.append_assoc]
    rw [show ("Encountered a recoverable error" ++ " in agent ") =
      "Encountered a recoverable error in agent " from rfl]
  have hbase2 : base_message (.agentError msg none) =
      "Encountered a recoverable error: " ++ msg ++ "." := by
    simp only [base_message]
    rw [show ("Encountered a recoverable error" ++ "" ++ ": ") =
      "Encountered a recoverable error: " from rfl]
  have hbase3 : base_message (.agentError msg (some (""))) =
      "Encountered a recoverable error: " ++ msg ++ "." := by
    simp only [base_message]
    rw [show (if ("" : String).isEmpty then ""
      else " in agent " ++ sq ++ "" ++ sq) = "" from rfl]
    rw [show ("Encountered a recoverable error" ++ "" ++ ": ") =
      "Encountered a recoverable error: " from rfl]
  refine ⟨?_, ?_, ?_, ?_, ?_⟩
  · obtain ⟨t, ht⟩ := debugging_run_eq_base_append w en (.agentError msg (some tag))
    exact ⟨t, by rw [ht, hbase]⟩
  · obtain ⟨t, ht⟩ := debugging_run_eq_base_append w en (.agentError msg none)
    exact ⟨t, by rw [ht, hbase2]⟩
  · obtain ⟨t, ht⟩ := debugging_run_eq_base_append w en (.agentError msg (some ("")))
    exact ⟨t, by rw [ht, hbase3]⟩
  · obtain ⟨t, ht⟩ := debugging_run_eq_base_append w en (.typeError msg)
    exact ⟨t, by rw [ht]; rfl⟩
  · intro hw hen
    subst hw hen
    simp [debugging_run, hbase]

/-- C7 (amended): every histogram spec of the heuristic plan carries the bin
count `min(40, max(10, int(row_count ** 0.5)))` — the square root of the row
count truncated (floored) to an integer, then clamped to `[10, 40]` (the
source truncates with `int(...)`; it does not round to nearest). -/
theorem heuristic_bins_value (df : DataFrame) (spec : ChartSpec)
    (hmem : spec ∈ (heuristic_plan df).charts) (htype : spec.chart_type = "histogram") :
    spec.options = [("bins", JVal.num ((min 40 (max 10 (Nat.sqrt df.nrows)) : Nat) : Int))] := by
  simp only [heuristic_plan, List.mem_append] at hmem
  rcases hmem with (hmem | hmem) | hmem
  · obtain ⟨c, _, rfl⟩ := List.mem_map.mp hmem
    rfl
  · split at hmem
    · rw [List.mem_singleton.mp hmem] at htype
      simp [heuristicScatter] at htype
    · exact absurd hmem (List.not_mem_nil _)
  · split at hmem
    · exact absurd hmem (List.not_mem_nil _)
    · rw [List.mem_singleton.mp hmem] at htype
      simp [heuristicBar] at htype

/-- Witness for `heuristic_bins_value` at Scenario A's dataset and its first
histogram. -/
theorem heuristic_bins_value_witness :
    (heuristicHist 3 ("age")).options = [("bins", JVal.num ((min 40 (max 10 (Nat.sqrt 3)) : Nat) : Int))] :=
  heuristic_bins_value dfScenarioA (heuristicHist 3 ("age"))
    (by simp [heuristic_plan, dfScenarioA, DataFrame.numericNames, DataFrame.catNames]) rfl

/-- C4 (amended): with no model configured the planner returns exactly the
heuristic plan, whose charts are: one histogram per numeric column in native
column order; then, if more than one numeric column exists, exactly one
scatter over the first two numeric columns; then, if at least one non-numeric
column exists AND the dataset has at least one row, exactly one bar spec over
the first non-numeric column (capped to the top 20 categories via its
`top_n` option).  On Scenario A's dataset this is 2 histograms, 1
scatter(age, income) and 1 bar(city). -/
theorem heuristic_plan_composition (df : DataFrame) (outcome : LLMOutcome) :
    chartPlanningRun none (some df) outcome = .ok (heuristic_plan df)
    ∧ (heuristic_plan df).charts =
        (df.numericNames.map (heuristicHist df.nrows))
        ++ (if 1 < df.numericNames.length then
              [heuristicScatter (df.numericNames.getD 0 "") (df.numericNames.getD 1 "")]
            else [])
        ++ (if df.catNames ≠ [] ∧ df.nrows ≠ 0 then [heuristicBar (df.catNames.getD 0 "")]
            else [])
    ∧ (heuristicBar (df.catNames.getD 0 "")).options = [("top_n", JVal.num 20)]
    ∧ (heuristic_plan dfScenarioA).charts =
        [heuristicHist 3 ("age"), heuristicHist 3 ("income"),
         heuristicScatter ("age") ("income"), heuristicBar ("city")] := by
  refine ⟨rfl, ?_, rfl, rfl⟩
  simp only [heuristic_plan]
  by_cases h1 : df.catNames = [] <;> by_cases h2 : df.nrows = 0 <;>
    simp [h1, h2]

/-- C10 (amended): when the plan is `None` or has zero charts and the dataset
has at least one numeric column AND at least one row, the renderer does not
fail at plan construction: it builds the built-in default plan — one histogram
per numeric column plus, when more than one numeric column exists, one scatter
over the first two — and the run's outcome is exactly the rendering of those
default specs (an error only if every one of them is skipped). -/
theorem viz_default_plan_shape (df : DataFrame) (dir : String) (plan : Option ChartPlan)
    (hplan : (plan.map (·.charts)).getD [] = [])
    (hnum : df.numericNames ≠ []) (hrows : df.nrows ≠ 0) :
    default_plan df = .ok ((df.numericNames.map defaultHist)
      ++ (if 1 < df.numericNames.length then
            [defaultScatter (df.numericNames.getD 0 "") (df.numericNames.getD 1 "")]
          else []))
    ∧ data_visualization_run (some df) (some dir) plan =
        (if ((df.numericNames.map defaultHist)
              ++ (if 1 < df.numericNames.length then
                    [defaultScatter (df.numericNames.getD 0 "") (df.numericNames.getD 1 "")]
                  else [])).filterMap (render_chart df dir) = [] then
          .error (.agentError ("No charts could be generated for the provided plan.")
            (some ("data_visualization")))
        else
          .ok (((df.numericNames.map defaultHist)
              ++ (if 1 < df.numericNames.length then
                    [defaultScatter (df.numericNames.getD 0 "") (df.numericNames.getD 1 "")]
                  else [])).filterMap (render_chart df dir))) := by
  have hdp : default_plan df = .ok ((df.numericNames.map defaultHist)
      ++ (if 1 < df.numericNames.length then
            [defaultScatter (df.numericNames.getD 0 "") (df.numericNames.getD 1 "")]
          else [])) := by
    simp [default_plan, hnum, hrows]
  refine ⟨hdp, ?_⟩
  cases plan with
  | none =>
    simp only [data_visualization_run, hdp]
    split <;> simp_all
  | some p =>
    have hpc : p.charts.isEmpty = true := by
      simp only [Option.map, Option.getD] at hplan
      simp [hplan]
    simp only [data_visualization_run, hpc, if_true, hdp]
    split <;> simp_all

/-- Witness for `viz_default_plan_shape` at Scenario A's dataset with no
plan supplied. -/
theorem viz_default_plan_shape_witness :
    default_plan dfScenarioA = .ok ((dfScenarioA.numericNames.map defaultHist)
      ++ (if 1 < dfScenarioA.numericNames.length then
            [defaultScatter (dfScenarioA.numericNames.getD 0 "")
              (dfScenarioA.numericNames.getD 1 "")]
          else [])) :=
  (viz_default_plan_shape dfScenarioA ("out") none rfl (by decide) (by decide)).1

/-- C6: whenever the model strategy yields no usable plan — its attempt
returned a heuristic-tagged plan with no charts, which is what every failure
mode produces — the planner returns the heuristic plan with the attempt's
warnings appended to the heuristic plan's warnings; in particular after a
transport failure the returned plan carries exactly one warning describing
that failure. -/
theorem planning_fallback_merges_warnings (m : String) (df : DataFrame)
    (outcome : LLMOutcome) (p : ChartPlan) (hm : m ≠ "")
    (hp : attempt_llm_plan df outcome = .ok p) (hsrc : p.source = "heuristic")
    (hcharts : p.charts = []) :
    chartPlanningRun (some m) (some df) outcome =
      .ok { heuristic_plan df with
            warnings := (heuristic_plan df).warnings ++ p.warnings }
    ∧ ∀ exc, chartPlanningRun (some m) (some df) (.transportFail exc) =
        .ok { heuristic_plan df with
              warnings := ["LLM planning failed: " ++ exc] } := by
  have hmt : modelTruthy (some m) = true := by
    have h1 : m.isEmpty = false := by
      cases h2 : m.isEmpty
      · rfl
      · exact absurd ((String.isEmpty_iff m).mp h2) hm
    simp [modelTruthy, h1]
  constructor
  · simp [chartPlanningRun, hmt, hp, Except.map, bind, Except.bind, hsrc, hcharts]
  · intro exc
    simp [chartPlanningRun, hmt, attempt_llm_plan, emptyHeuristic, Except.map, bind,
      Except.bind, heuristic_plan]

/-- Witness for `planning_fallback_merges_warnings`: a transport failure on
Scenario A's dataset falls back to the heuristic plan and carries exactly the
one transport warning. -/
theorem planning_fallback_merges_warnings_witness :
    chartPlanningRun (some ("gpt-4o-mini")) (some dfScenarioA)
        (.transportFail ("connection refused")) =
      .ok { heuristic_plan dfScenarioA with
            warnings := (heuristic_plan dfScenarioA).warnings ++
              ["LLM planning failed: connection refused"] } :=
  (planning_fallback_merges_warnings ("gpt-4o-mini") dfScenarioA
    (.transportFail ("connection refused"))
    (emptyHeuristic ("LLM planning failed: connection refused"))
    (by decide) rfl rfl rfl).1

/-- Whether an `Except` value is a success. -/
def exOkB {ε α : Type} : Except ε α → Bool
  | .ok _ => true
  | .error _ => false

/-- A charts element the candidate validation cannot raise on: a JSON object
whose `"x"` member is hashable and whose `"y"` member (when present and
non-null) is hashable.  (A non-object element raises `AttributeError` at
`raw.get` instead.) -/
def chartRawOk : JVal → Bool
  | .obj kvs =>
    (match jlookup kvs ("x") with
      | some v => !(isUnhashable v)
      | none => true)
    && (match collapseNull (jlookup kvs ("y")) with
      | some v => !(isUnhashable v)
      | none => true)
  | _ => false

/-- The payload shapes the planner survives: the parsed JSON must be an
object, and its `"charts"` member (when present) must iterate without raising
into elements that are all objects with hashable `"x"`/`"y"` members. -/
def chartsWellShaped : JVal → Bool
  | .obj kvs =>
    match jlookup kvs ("charts") with
    | none => true
    | some cv =>
      match iterElems cv with
      | .ok xs => xs.all chartRawOk
      | .error _ => false
  | _ => false

/-- A completion-service behaviour under which the planner cannot raise: any
failure mode, or a parsed payload that is well shaped. -/
def outcomeGood : LLMOutcome → Bool
  | .jsonOk payload => chartsWellShaped payload
  | _ => true

/-- Candidate validation cannot raise when the entry's `"x"` and `"y"` members
are hashable. -/
lemma parseOne_ok_of_hashable (cols : List String) (kvs : List (String × JVal))
    (hchart : chartRawOk (.obj kvs) = true) : exOkB (parseOne cols kvs) = true := by
  have hx' : ((match jlookup kvs ("x") with
      | some v => !(isUnhashable v)
      | none => true)
    && (match collapseNull (jlookup kvs ("y")) with
      | some v => !(isUnhashable v)
      | none => true)) = true := hchart
  rw [Bool.and_eq_true] at hx'
  obtain ⟨hx, hy⟩ := hx'
  simp only [parseOne]
  by_cases hct : toLowerStr (pyStrip (pyStr ((jlookup kvs ("chart_type")).getD (.str (""))))) = ""
  · rw [if_pos hct]
    rfl
  · rw [if_neg hct]
    cases hxl : jlookup kvs ("x") with
    | none => rfl
    | some v =>
      have hx2 : (!(isUnhashable v)) = true := by rw [hxl] at hx; exact hx
      cases v with
      | str x =>
        cases hcx : cols.contains x with
        | false =>
          have hm : ¬ x ∈ cols := by simpa using hcx
          simp [hm, exOkB]
        | true =>
          have hm : x ∈ cols := by simpa using hcx
          cases hyl : collapseNull (jlookup kvs ("y")) with
          | none => simp [hm, hyl, exOkB]
          | some w =>
            have hy2 : (!(isUnhashable w)) = true := by rw [hyl] at hy; exact hy
            cases w with
            | str yv =>
              cases hcy : cols.contains yv with
              | false =>
                have hmy : ¬ yv ∈ cols := by simpa using hcy
                simp [hm, hyl, hmy, exOkB]
              | true =>
                have hmy : yv ∈ cols := by simpa using hcy
                simp [hm, hyl, hmy, exOkB]
            | arr ys => simp [isUnhashable] at hy2
            | obj os => simp [isUnhashable] at hy2
            | num n => simp [hm, hyl, exOkB]
            | flt lit => simp [hm, hyl, exOkB]
            | bool b => simp [hm, hyl, exOkB]
            | null => simp [hm, hyl, exOkB]
      | arr xs => simp [isUnhashable] at hx2
      | obj os => simp [isUnhashable] at hx2
      | num n => rfl
      | flt lit => rfl
      | bool b => rfl
      | null => rfl

/-- Candidate parsing succeeds on a list of well-shaped chart objects. -/
lemma parseAll_ok_of_objs (cols : List String) (xs : List JVal)
    (h : xs.all chartRawOk = true) : ∃ specs, parseAll cols xs = .ok specs := by
  induction xs with
  | nil => exact ⟨[], rfl⟩
  | cons x rest ih =>
    rw [List.all_cons, Bool.and_eq_true] at h
    obtain ⟨hx, hrest⟩ := h
    obtain ⟨specs, hs⟩ := ih hrest
    cases x <;> (try simp [chartRawOk] at hx)
    rename_i kvs
    have hone := parseOne_ok_of_hashable cols kvs (by simpa [chartRawOk] using hx)
    cases hpo : parseOne cols kvs with
    | error e => rw [hpo] at hone; simp [exOkB] at hone
    | ok o =>
      refine ⟨(match o with
        | some s => s :: specs
        | none => specs), ?_⟩
      simp only [parseAll, parseRaw, bind, Except.bind, hpo, hs]
      cases o <;> rfl

/-- C1 (amended): for every non-`None` dataframe and every completion-service
behaviour whose parsed JSON (if any) is an object whose charts member
iterates into objects with hashable `"x"`/`"y"` members, the planner returns
a Chart Plan and does not raise; every service failure degrades to the
heuristic strategy.  (For an ill-shaped payload — a non-object payload, a
non-iterable charts value, a charts element that is not an object, or an
element whose tested `"x"`/`"y"` is an unhashable list/dict — the planner
raises; see the counterexamples.) -/
theorem chart_planning_never_raises_on_good_payload (llm_model : Option String)
    (df : DataFrame) (outcome : LLMOutcome) (h : outcomeGood outcome = true) :
    ∃ plan, chartPlanningRun llm_model (some df) outcome = .ok plan := by
  by_cases hm : modelTruthy llm_model = true
  · have hatt : ∃ p, attempt_llm_plan df outcome = .ok p := by
      cases outcome with
      | jsonOk payload =>
        cases payload with
        | obj kvs =>
          have h' : (match jlookup kvs ("charts") with
            | none => true
            | some cv =>
              match iterElems cv with
              | Except.ok xs => xs.all chartRawOk
              | Except.error _ => false) = true := h
          cases hl : jlookup kvs ("charts") with
          | none =>
            exact ⟨emptyHeuristic ("LLM did not yield valid charts; using heuristic plan."),
              by simp [attempt_llm_plan, hl, iterElems, parseAll, bind, Except.bind]⟩
          | some cv =>
            rw [hl] at h'
            have h2 : (match iterElems cv with
              | Except.ok xs => xs.all chartRawOk
              | Except.error _ => false) = true := h'
            cases hi : iterElems cv with
            | error e =>
              have h3 : false = true := by rw [hi] at h2; exact h2
              exact absurd h3 (by decide)
            | ok xs =>
              have h3 : xs.all chartRawOk = true := by rw [hi] at h2; exact h2
              obtain ⟨specs, hs⟩ := parseAll_ok_of_objs df.colNames xs h3
              cases hempty : specs.isEmpty
              · exact ⟨{ charts := specs, source := "llm", warnings := [] },
                  by simp [attempt_llm_plan, hl, hi, hs, hempty, bind, Except.bind]⟩
              · exact ⟨emptyHeuristic ("LLM did not yield valid charts; using heuristic plan."),
                  by simp [attempt_llm_plan, hl, hi, hs, hempty, bind, Except.bind]⟩
        | str s => simp [outcomeGood, chartsWellShaped] at h
        | num n => simp [outcomeGood, chartsWellShaped] at h
        | flt lit => simp [outcomeGood, chartsWellShaped] at h
        | bool b => simp [outcomeGood, chartsWellShaped] at h
        | null => simp [outcomeGood, chartsWellShaped] at h
        | arr xs => simp [outcomeGood, chartsWellShaped] at h
      | noClient => exact ⟨_, rfl⟩
      | transportFail exc => exact ⟨_, rfl⟩
      | structureFail exc => exact ⟨_, rfl⟩
      | emptyContent => exact ⟨_, rfl⟩
      | badJson exc => exact ⟨_, rfl⟩
    obtain ⟨p, hp⟩ := hatt
    cases hcond : (p.source == "heuristic" && p.charts.isEmpty)
    · exact ⟨p, by simp [chartPlanningRun, hm, hp, hcond, bind, Except.bind, Except.map]⟩
    · exact ⟨{ heuristic_plan df with
          warnings := (heuristic_plan df).warnings ++ p.warnings },
        by simp [chartPlanningRun, hm, hp, hcond, bind, Except.bind, Except.map]⟩
  · have hm' : modelTruthy llm_model = false := by simpa using hm
    exact ⟨heuristic_plan df, by simp [chartPlanningRun, hm', bind, Except.bind]⟩

/-- Witness for `chart_planning_never_raises_on_good_payload`: a well-shaped
reply with one valid chart yields a plan. -/
theorem chart_planning_never_raises_on_good_payload_witness :
    ∃ plan, chartPlanningRun (some ("gpt-4o")) (some dfOneNum)
      (.jsonOk (.obj [("charts",
        .arr [.obj [("chart_type", .str ("Histogram")), ("x", .str ("a"))]])])) = .ok plan :=
  chart_planning_never_raises_on_good_payload (some ("gpt-4o")) dfOneNum
    (.jsonOk (.obj [("charts",
      .arr [.obj [("chart_type", .str ("Histogram")), ("x", .str ("a"))]])])) rfl

/-- The claim's keep condition for one candidate entry: its chart type is
non-empty after case-folding (`str(...).strip().lower()`), its `x` is a column
of the dataset, and its `y` — when present (not absent and not `None`) — is
also a column of the dataset. -/
def keep_condition (cols : List String) (raw : List (String × JVal)) : Prop :=
  toLowerStr (pyStrip (pyStr ((jlookup raw ("chart_type")).getD (.str (""))))) ≠ ""
  ∧ (∃ s, jlookup raw ("x") = some (.str s) ∧ s ∈ cols)
  ∧ (match collapseNull (jlookup raw ("y")) with
     | none => True
     | some v => ∃ s, v = .str s ∧ s ∈ cols)

/-- The condition under which validating one candidate raises: the case-folded
chart type is non-empty (otherwise `or` short-circuits before the membership
test) and either its `x` is an unhashable (list/dict) value, or its `x`
passes the column test and its present non-null `y` is unhashable. -/
def raise_condition (cols : List String) (raw : List (String × JVal)) : Prop :=
  toLowerStr (pyStrip (pyStr ((jlookup raw ("chart_type")).getD (.str (""))))) ≠ ""
  ∧ ((∃ v, jlookup raw ("x") = some v ∧ isUnhashable v = true)
     ∨ ((∃ s, jlookup raw ("x") = some (.str s) ∧ s ∈ cols)
        ∧ ∃ w, collapseNull (jlookup raw ("y")) = some w ∧ isUnhashable w = true))

/-- A candidate kept by `_parse_chart_specs` references only existing
columns. -/
lemma parseOne_valid (cols : List String) (kvs : List (String × JVal)) (spec : ChartSpec)
    (h : parseOne cols kvs = .ok (some spec)) :
    spec.x ∈ cols ∧ ∀ s, spec.y = some s → s ∈ cols := by
  simp only [parseOne] at h
  split at h
  · simp at h
  · split at h
    · split at h
      · split at h
        · simp only [Except.ok.injEq, Option.some.injEq] at h
          subst h
          simp_all [builtSpec]
        · split at h
          · simp only [Except.ok.injEq, Option.some.injEq] at h
            subst h
            simp_all [builtSpec]
          · simp at h
        · simp at h
        · simp at h
        · simp at h
      · simp at h
    · simp at h
    · simp at h
    · simp at h

/-- C5 (amended): a candidate entry is kept by the parser iff its case-folded
chart type is non-empty, its `x` is a string naming an existing column, and
its `y` (when present) is a string naming an existing column; validating a
candidate raises a `TypeError` exactly when its chart type is non-empty and
its tested `x` or `y` is an unhashable list/dict; and every spec in a
successfully parsed chart list references only existing columns — an entry
referencing an absent column never appears in the output. -/
theorem parse_chart_specs_keep_iff (cols : List String) (raw : List (String × JVal)) :
    ((∃ spec, parseOne cols raw = .ok (some spec)) ↔ keep_condition cols raw)
    ∧ ((∃ e, parseOne cols raw = .error e) ↔ raise_condition cols raw)
    ∧ ∀ (payload : List JVal) (specs : List ChartSpec),
        parseAll cols payload = .ok specs →
        ∀ spec ∈ specs, spec.x ∈ cols ∧ ∀ s, spec.y = some s → s ∈ cols := by
  have main : ((∃ spec, parseOne cols raw = .ok (some spec)) ↔ keep_condition cols raw)
      ∧ ((∃ e, parseOne cols raw = .error e) ↔ raise_condition cols raw) := by
    simp only [parseOne, keep_condition, raise_condition]
    by_cases hct : toLowerStr (pyStrip (pyStr ((jlookup raw ("chart_type")).getD (.str (""))))) = ""
    · simp [hct]
    · simp only [hct, if_false]
      cases hx : jlookup raw ("x") with
      | none => simp [hx, hct]
      | some v =>
        cases v with
        | str x =>
          cases hcx : cols.contains x with
          | false =>
            have hmem : ¬ x ∈ cols := by simpa using hcx
            simp [hx, hcx, hct, hmem, isUnhashable]
          | true =>
            have hmem : x ∈ cols := by simpa using hcx
            cases hy : collapseNull (jlookup raw ("y")) with
            | none => simp [hx, hcx, hct, hmem, hy, isUnhashable]
            | some w =>
              cases w with
              | str yv =>
                cases hcy : cols.contains yv with
                | false =>
                  have hmemy : ¬ yv ∈ cols := by simpa using hcy
                  simp [hx, hcx, hct, hmem, hy, hcy, hmemy, isUnhashable]
                | true =>
                  have hmemy : yv ∈ cols := by simpa using hcy
                  simp [hx, hcx, hct, hmem, hy, hcy, hmemy, isUnhashable]
              | num n => simp [hx, hcx, hct, hmem, hy, isUnhashable]
              | flt lit => simp [hx, hcx, hct, hmem, hy, isUnhashable]
              | bool b => simp [hx, hcx, hct, hmem, hy, isUnhashable]
              | null => simp [hx, hcx, hct, hmem, hy, isUnhashable]
              | arr ys => simp [hx, hcx, hct, hmem, hy, unhashableErr, isUnhashable]
              | obj os => simp [hx, hcx, hct, hmem, hy, unhashableErr, isUnhashable]
        | num n => simp [hx, hct, isUnhashable]
        | flt lit => simp [hx, hct, isUnhashable]
        | bool b => simp [hx, hct, isUnhashable]
        | null => simp [hx, hct, isUnhashable]
        | arr xs => simp [hx, hct, unhashableErr, isUnhashable]
        | obj os => simp [hx, hct, unhashableErr, isUnhashable]
  refine ⟨main.1, main.2, ?_⟩
  intro payload
  induction payload with
  | nil =>
    intro specs hspecs spec hmem
    simp only [parseAll] at hspecs
    cases hspecs
    simp at hmem
  | cons rawv rest ih =>
    intro specs hspecs spec hmem
    simp only [parseAll] at hspecs
    cases rawv with
    | obj kvs =>
      simp only [parseRaw, bind, Except.bind] at hspecs
      cases hpo : parseOne cols kvs with
      | error e => rw [hpo] at hspecs; simp at hspecs
      | ok spec? =>
        cases hrest : parseAll cols rest with
        | error e => rw [hpo, hrest] at hspecs; simp at hspecs
        | ok specs' =>
          rw [hpo, hrest] at hspecs
          cases spec? with
          | none =>
            have h2 : specs' = specs := Except.ok.inj hspecs
            subst h2
            exact ih specs' hrest spec hmem
          | some s0 =>
            have h2 : s0 :: specs' = specs := Except.ok.inj hspecs
            subst h2
            rcases List.mem_cons.mp hmem with rfl | hmem2
            · exact parseOne_valid cols kvs spec hpo
            · exact ih specs' hrest spec hmem2
    | str s2 => simp [parseRaw, bind, Except.bind] at hspecs
    | num n => simp [parseRaw, bind, Except.bind] at hspecs
    | flt lit => simp [parseRaw, bind, Except.bind] at hspecs
    | bool b => simp [parseRaw, bind, Except.bind] at hspecs
    | null => simp [parseRaw, bind, Except.bind] at hspecs
    | arr xs => simp [parseRaw, bind, Except.bind] at hspecs

/-- C5 counterexample: an entry whose `x` is a JSON array — an unhashable
value — makes the membership test `x not in available_columns` raise
`TypeError` instead of being silently excluded, and the error propagates out
of the planner's run, refuting "never raises". -/
theorem parse_chart_specs_raises_on_unhashable_column :
    parseOne (["a"]) ([("chart_type", JVal.str ("bar")), ("x", JVal.arr [JVal.str ("a")])])
      = .error (.typeError ("unhashable type: " ++ sq ++ "list" ++ sq))
    ∧ chartPlanningRun (some ("gpt-4o")) (some dfOneNum)
        (.jsonOk (.obj [("charts",
          .arr [.obj [("chart_type", .str ("bar")), ("x", .arr [.str ("a")])]])]))
      = .error (.typeError ("unhashable type: " ++ sq ++ "list" ++ sq)) :=
  ⟨rfl, rfl⟩

/-- Witness for `parse_chart_specs_keep_iff`: a valid candidate is kept, and
the parsed spec references an existing column. -/
theorem parse_chart_specs_keep_iff_witness :
    (∃ spec, parseOne (["age", "income"])
      ([("chart_type", JVal.str ("Histogram")), ("x", JVal.str ("age"))]) = .ok (some spec))
    ∧ ({ chart_type := "histogram", x := "age" } : ChartSpec).x ∈
        (["age", "income"] : List String) :=
  ⟨(parse_chart_specs_keep_iff (["age", "income"])
      ([("chart_type", JVal.str ("Histogram")), ("x", JVal.str ("age"))])).1.mpr
      ⟨by decide, ⟨"age", rfl, by decide⟩, trivial⟩,
   ((parse_chart_specs_keep_iff (["age", "income"])
      ([("chart_type", JVal.str ("Histogram")), ("x", JVal.str ("age"))])).2.2
      ([JVal.obj [("chart_type", JVal.str ("Histogram")), ("x", JVal.str ("age"))]])
      ([{ chart_type := "histogram", x := "age" }]) rfl
      { chart_type := "histogram", x := "age" } (List.mem_singleton.mpr rfl)).1⟩

/-- Witness for `orchestrator_result_exactly_one_side`: a run whose four
stages all succeed carries no diagnostic message. -/
theorem orchestrator_result_exactly_one_side_witness :
    (orchestrator_run (.ok dfScenarioA) (.ok ⟨[]⟩) (.ok (heuristic_plan dfScenarioA))
        (.ok (["out/hist_age.png"])) [] .noClient).debug_message = none :=
  (orchestrator_result_exactly_one_side (.ok dfScenarioA) (.ok ⟨[]⟩)
    (.ok (heuristic_plan dfScenarioA)) (.ok (["out/hist_age.png"])) [] .noClient).1.mpr
    ⟨⟨_, rfl⟩, ⟨_, rfl⟩, ⟨_, rfl⟩, ⟨_, rfl⟩⟩

/-- Witness for `debug_message_templates`: without enrichment, the tagged
template is returned exactly. -/
theorem debug_message_templates_witness :
    debugging_run [] .noClient (some (.agentError ("x") (some ("data_extraction")))) =
      "Encountered a recoverable error in agent " ++ sq ++ "data_extraction" ++ sq ++ ": x." :=
  (debug_message_templates [] .noClient ("x") ("data_extraction") (by decide)).2.2.2.2 rfl rfl

end AiAgentDemo
